import Mathlib

/-!
Verification of the FarmFresh marketplace's cart/review/shop consistency layer.

The definitions below shallowly embed the route handlers of `src/index.js`
and the relational schema of `src/config/schema.js`:

* table rows become structures, the database a record of row lists;
* each route handler becomes a pure function from the database state and
  the request parameters to `Except HttpErr DB` (an error response leaves
  the database untouched, exactly as the handlers return before issuing
  any write);
* SQL `DECIMAL(3,2)` rating columns are represented exactly in hundredths
  (`ratingCenti : Nat`), so `AVG(rating)::numeric(3,2)` becomes
  half-away-from-zero rounding of `100 * sum / count`;
* JavaScript `parseInt(x) || 1` becomes `parseIntOr1 : Option Int → Int`
  (`none` models a NaN parse, and the integer `0` is falsy, hence mapped
  to the default `1`).
-/

namespace FarmFresh

/-- Role column of the `users` table (`schema.js`): buyer or seller. -/
inductive Role
  | buyer
  | seller
deriving DecidableEq, Repr

/-- A row of the `products` table (`schema.js` lines 43-60), restricted to
the columns the cart and review routes read or write.  `ratingCenti` is the
`DECIMAL(3,2)` rating column in exact hundredths. -/
structure Product where
  id : Nat
  farmerId : Nat
  stockQuantity : Int
  ratingCenti : Nat
  totalReviews : Nat
deriving DecidableEq, Repr

/-- A row of the `cart` table (`schema.js` lines 119-126).  The table has a
`UNIQUE(user_id, product_id)` constraint. -/
structure CartRow where
  id : Nat
  userId : Nat
  productId : Nat
  quantity : Int
deriving DecidableEq, Repr

/-- A row of the `reviews` table (`schema.js` lines 138-147): a required
integer rating and an optional text comment. -/
structure Review where
  id : Nat
  userId : Nat
  productId : Nat
  farmerId : Nat
  rating : Nat
  comment : Option String
deriving DecidableEq, Repr

/-- A row of the `farmers` table (`schema.js` lines 19-40), restricted to
the columns the routes under study touch.  The table has a `UNIQUE`
constraint on `user_id`. -/
structure Farmer where
  id : Nat
  userId : Nat
  ratingCenti : Nat
  totalReviews : Nat
deriving DecidableEq, Repr

/-- The database state seen by the handlers: the four tables plus the
`SERIAL` counters used to assign fresh primary keys on insert. -/
structure DB where
  products : List Product
  cart : List CartRow
  reviews : List Review
  farmers : List Farmer
  nextCartId : Nat
  nextReviewId : Nat
deriving DecidableEq, Repr

/-- An HTTP error response: status code and message, exactly as the
handlers send them. -/
structure HttpErr where
  status : Nat
  message : String
deriving DecidableEq, Repr

/-- Model of `parseInt(x) || 1` from the cart routes: a NaN parse (`none`) and the
falsy integer `0` both fall back to the default quantity `1`. -/
def parseIntOr1 : Option Int → Int
  | none => 1
  | some n => if n = 0 then 1 else n

/-- Query `SELECT ... FROM products WHERE id = $1`. -/
def findProduct (db : DB) (productId : Nat) : Option Product :=
  db.products.find? (fun p => p.id == productId)

/-- Query `SELECT ... FROM cart WHERE user_id = $1 AND product_id = $2`. -/
def findCartEntry (db : DB) (userId productId : Nat) : Option CartRow :=
  db.cart.find? (fun c => c.userId == userId && c.productId == productId)

/-- Query `SELECT ... FROM reviews WHERE user_id = $1 AND product_id = $2`. -/
def findReview (db : DB) (userId productId : Nat) : Option Review :=
  db.reviews.find? (fun r => r.userId == userId && r.productId == productId)

/-- Statement `UPDATE cart SET quantity = $1 WHERE id = $2`. -/
def updateCartQty (cart : List CartRow) (cartId : Nat) (q : Int) : List CartRow :=
  cart.map (fun c => if c.id == cartId then { c with quantity := q } else c)

/-- Route `POST /cart/add` (`src/index.js` lines 176-229).  Looks up the product
(404 if absent), rejects a requested quantity above the stock, then either
accumulates onto the existing cart entry (rejecting if the sum exceeds
stock) or inserts a fresh row. -/
def addToCart (db : DB) (userId productId : Nat) (quantityRaw : Option Int) :
    Except HttpErr DB :=
  let qty := parseIntOr1 quantityRaw
  match findProduct db productId with
  | none => .error ⟨404, "Product not found"⟩
  | some product =>
    if product.stockQuantity < qty then
      .error ⟨400, "Insufficient stock"⟩
    else
      match findCartEntry db userId productId with
      | some entry =>
        let newQty := entry.quantity + qty
        if newQty > product.stockQuantity then
          .error ⟨400, "Quantity exceeds available stock"⟩
        else
          .ok { db with cart := updateCartQty db.cart entry.id newQty }
      | none =>
        .ok { db with
              cart := db.cart ++ [⟨db.nextCartId, userId, productId, qty⟩],
              nextCartId := db.nextCartId + 1 }

/-- Route `POST /cart/update` (`src/index.js` lines 232-276).  Coerces the raw
quantity through `parseInt(...) || 1`, rejects a non-positive coerced
quantity, requires the cart row to belong to the caller, checks the stock
of the row's product, then overwrites the quantity.  The handler reads
`productRes.rows[0]` without a row-count check; the cart's foreign key
guarantees the product exists, and a missing product would throw and
surface as the catch-all 500. -/
def updateQuantity (db : DB) (userId cartId : Nat) (quantityRaw : Option Int) :
    Except HttpErr DB :=
  let qty := parseIntOr1 quantityRaw
  if qty ≤ 0 then
    .error ⟨400, "Quantity must be greater than 0"⟩
  else
    match db.cart.find? (fun c => c.id == cartId && c.userId == userId) with
    | none => .error ⟨404, "Cart item not found"⟩
    | some entry =>
      match findProduct db entry.productId with
      | none => .error ⟨500, "Failed to update cart"⟩
      | some product =>
        if qty > product.stockQuantity then
          .error ⟨400, "Quantity exceeds available stock"⟩
        else
          .ok { db with cart := updateCartQty db.cart cartId qty }

/-- Route `DELETE /cart/remove/:cartId` (`src/index.js` lines 279-303):
`DELETE FROM cart WHERE id = $1 AND user_id = $2`, 404 when no row
matched. -/
def removeFromCart (db : DB) (userId cartId : Nat) : Except HttpErr DB :=
  if db.cart.any (fun c => c.id == cartId && c.userId == userId) then
    .ok { db with cart := db.cart.filter (fun c => !(c.id == cartId && c.userId == userId)) }
  else
    .error ⟨404, "Cart item not found"⟩

/-- Query `SELECT ... FROM reviews WHERE product_id = $1`: the rows the product
aggregate is recomputed from. -/
def productReviews (db : DB) (productId : Nat) : List Review :=
  db.reviews.filter (fun r => r.productId == productId)

/-- Query `SELECT ... FROM reviews WHERE farmer_id = $1`: the rows the farmer
aggregate is recomputed from. -/
def farmerReviews (db : DB) (farmerId : Nat) : List Review :=
  db.reviews.filter (fun r => r.farmerId == farmerId)

/-- Sum of the rating column over a list of review rows. -/
def ratingSum (rs : List Review) : Nat :=
  (rs.map Review.rating).sum

/-- Cast `AVG(rating)::numeric(3,2)` in exact hundredths: `100 * sum / count`
rounded half away from zero (the sum is non-negative, so half up);
`numeric` division by zero never occurs because the handler falls back to
`0` when the average is NULL.  Nat division makes the `count = 0` case
yield `0` as well. -/
def roundAvgCenti (sum count : Nat) : Nat :=
  (200 * sum + count) / (2 * count)

/-- The review upsert inside `POST /product/:id/rate` (`src/index.js`
lines 561-577): update the rating of the existing `(user, product)` review
row if one exists, else insert a fresh row with a NULL comment and the
product's farmer id. -/
def upsertReview (db : DB) (userId productId farmerId rating : Nat) : DB :=
  match findReview db userId productId with
  | some r0 =>
    { db with reviews :=
        db.reviews.map (fun r => if r.id == r0.id then { r with rating := rating } else r) }
  | none =>
    { db with
      reviews := db.reviews ++ [⟨db.nextReviewId, userId, productId, farmerId, rating, none⟩],
      nextReviewId := db.nextReviewId + 1 }

/-- The product-aggregate recompute inside `POST /product/:id/rate`
(`src/index.js` lines 579-590): full re-scan of the product's reviews,
then `UPDATE products SET rating = $1, total_reviews = $2 WHERE id = $3`.
Returns the updated state together with the average (in hundredths) and
count the handler echoes in its JSON response. -/
def recomputeProductAgg (db : DB) (productId : Nat) : DB × Nat × Nat :=
  let rs := productReviews db productId
  let cnt := rs.length
  let avg := if cnt = 0 then 0 else roundAvgCenti (ratingSum rs) cnt
  ({ db with products :=
      db.products.map (fun p =>
        if p.id == productId then { p with ratingCenti := avg, totalReviews := cnt } else p) },
   avg, cnt)

/-- The farmer-aggregate recompute inside `POST /product/:id/rate`
(`src/index.js` lines 592-602): full re-scan of all reviews carrying the
farmer's id, then `UPDATE farmers SET rating = $1, total_reviews = $2`. -/
def recomputeFarmerAgg (db : DB) (farmerId : Nat) : DB :=
  let rs := farmerReviews db farmerId
  let cnt := rs.length
  let avg := if cnt = 0 then 0 else roundAvgCenti (ratingSum rs) cnt
  { db with farmers :=
      db.farmers.map (fun f =>
        if f.id == farmerId then { f with ratingCenti := avg, totalReviews := cnt } else f) }

/-- Route `POST /product/:id/rate` (`src/index.js` lines 537-609).  Validates
the rating range (`!rating || rating < 1 || rating > 5`; for an integer
the falsy case `rating = 0` is subsumed by `rating < 1`), requires the
product to exist, upserts the caller's review, then recomputes and
persists the product aggregate and the farmer aggregate.  On success
returns the new state with the product average (hundredths) and review
count from the response JSON. -/
def rate (db : DB) (userId productId : Nat) (rating : Int) :
    Except HttpErr (DB × Nat × Nat) :=
  if rating < 1 ∨ rating > 5 then
    .error ⟨400, "Rating must be between 1 and 5"⟩
  else
    match findProduct db productId with
    | none => .error ⟨404, "Product not found"⟩
    | some product =>
      let db1 := upsertReview db userId productId product.farmerId rating.toNat
      let res := recomputeProductAgg db1 productId
      let db3 := recomputeFarmerAgg res.1 product.farmerId
      .ok (db3, res.2.1, res.2.2)

/-- JavaScript `String.prototype.trim` as the comment route applies it:
drop leading and trailing whitespace characters.  (Defined over the
character list so that it evaluates on concrete inputs.) -/
def jsTrim (s : String) : String :=
  ⟨((s.data.dropWhile Char.isWhitespace).reverse.dropWhile Char.isWhitespace).reverse⟩

/-- Route `POST /product/:id/comment` (`src/index.js` lines 612-655).  Trims the
text and rejects an empty result, requires the product to exist, requires
an existing review row by the caller (else asks to rate first), then
writes the comment onto that row. -/
def comment (db : DB) (userId productId : Nat) (text : String) : Except HttpErr DB :=
  let c := jsTrim text
  if c = "" then
    .error ⟨400, "Comment cannot be empty"⟩
  else
    match findProduct db productId with
    | none => .error ⟨404, "Product not found"⟩
    | some _ =>
      match findReview db userId productId with
      | none => .error ⟨400, "Please rate this product before commenting"⟩
      | some r0 =>
        .ok { db with reviews :=
          db.reviews.map (fun r => if r.id == r0.id then { r with comment := some c } else r) }

/-- Route `DELETE /product/:id/comment` (`src/index.js` lines 658-692).  Finds
the caller's review row (404 when none), then
`UPDATE reviews SET comment = NULL WHERE id = $1` — the rating column is
untouched and no aggregate is recomputed. -/
def deleteComment (db : DB) (userId productId : Nat) : Except HttpErr DB :=
  match findReview db userId productId with
  | none => .error ⟨404, "No review found"⟩
  | some r0 =>
    .ok { db with reviews :=
      db.reviews.map (fun r => if r.id == r0.id then { r with comment := none } else r) }

/-- A session as `requireSeller` sees it: the logged-in user's id and
role. -/
structure Session where
  userId : Nat
  role : Role
deriving DecidableEq, Repr

/-- Outcome of `POST /create-shop`, mirroring the responses of
`src/index.js` lines 850-897 and the `requireSeller` middleware
(lines 934-938). -/
inductive ShopResult
  | redirectLogin
  | forbidden
  | redirectHome
  | redirectProfile
  | serverError
deriving DecidableEq, Repr

/-- The database's `UNIQUE` constraint on `farmers.user_id`
(`schema.js` line 21): an insert fails (unique violation) when a row with
the same `user_id` already exists.  Every write to the farmers table goes
through this primitive, so it is the enforcement point for the
one-profile-per-user invariant under any interleaving of requests. -/
def insertFarmer (farmers : List Farmer) (f : Farmer) : Option (List Farmer) :=
  if farmers.any (fun g => g.userId == f.userId) then none
  else some (farmers ++ [f])

/-- Route `POST /create-shop` (`src/index.js` lines 850-897) behind
`requireSeller`: redirect to login when no session, 403 when the role is
not seller; inside the transaction, an existing farmer profile rolls back
and redirects to the home page, otherwise the profile row is inserted
(subject to the unique constraint — a violation is caught, rolled back and
surfaced as the 500 response) and the handler redirects to the profile
page. -/
def createShop (db : DB) (sess : Option Session) (newFarmerId : Nat) :
    ShopResult × DB :=
  match sess with
  | none => (.redirectLogin, db)
  | some s =>
    if s.role ≠ .seller then (.forbidden, db)
    else if db.farmers.any (fun g => g.userId == s.userId) then (.redirectHome, db)
    else
      match insertFarmer db.farmers ⟨newFarmerId, s.userId, 0, 0⟩ with
      | none => (.serverError, db)
      | some fs => (.redirectProfile, { db with farmers := fs })

/-- Query `SELECT ... FROM farmers WHERE id = $1`. -/
def findFarmer (db : DB) (farmerId : Nat) : Option Farmer :=
  db.farmers.find? (fun f => f.id == farmerId)

/-- The state after an `addToCart` request: the new state on success, the
old state on an error response (the handler returns before any write). -/
def addToCartRun (db : DB) (userId productId : Nat) (quantityRaw : Option Int) : DB :=
  match addToCart db userId productId quantityRaw with
  | .ok db' => db'
  | .error _ => db

/-- The state after an `updateQuantity` request. -/
def updateQuantityRun (db : DB) (userId cartId : Nat) (quantityRaw : Option Int) : DB :=
  match updateQuantity db userId cartId quantityRaw with
  | .ok db' => db'
  | .error _ => db

/-- The state after a `removeFromCart` request. -/
def removeFromCartRun (db : DB) (userId cartId : Nat) : DB :=
  match removeFromCart db userId cartId with
  | .ok db' => db'
  | .error _ => db

/-- The state after a `rate` request. -/
def rateRun (db : DB) (userId productId : Nat) (rating : Int) : DB :=
  match rate db userId productId rating with
  | .ok out => out.1
  | .error _ => db

/-- The state after a `comment` request. -/
def commentRun (db : DB) (userId productId : Nat) (text : String) : DB :=
  match comment db userId productId text with
  | .ok db' => db'
  | .error _ => db

/-- One cart-mutating request, with its parameters. -/
inductive CartOp
  | add (userId productId : Nat) (quantityRaw : Option Int)
  | update (userId cartId : Nat) (quantityRaw : Option Int)
  | remove (userId cartId : Nat)
deriving DecidableEq, Repr

/-- Apply one cart-mutating request to the state. -/
def runCartOp (db : DB) : CartOp → DB
  | .add u p q => addToCartRun db u p q
  | .update u c q => updateQuantityRun db u c q
  | .remove u c => removeFromCartRun db u c

/-- Apply a sequence of cart-mutating requests in order. -/
def runCartOps (db : DB) (ops : List CartOp) : DB :=
  ops.foldl runCartOp db

/-- The `UNIQUE(user_id, product_id)` invariant of the cart table: no two
rows share the same (user, product) pair. -/
def CartUnique (cart : List CartRow) : Prop :=
  cart.Pairwise (fun a b => a.userId ≠ b.userId ∨ a.productId ≠ b.productId)

instance (cart : List CartRow) : Decidable (CartUnique cart) := by
  unfold CartUnique
  infer_instance

/-- The `UNIQUE` constraint on `farmers.user_id`: no two farmer rows share
a user id. -/
def FarmersUnique (fs : List Farmer) : Prop :=
  fs.Pairwise (fun a b => a.userId ≠ b.userId)

instance (fs : List Farmer) : Decidable (FarmersUnique fs) := by
  unfold FarmersUnique
  infer_instance

/-- One atomic write to the farmers table.  Every handler that writes a
new farmer row does so through `insertFarmer`, i.e. through the unique
constraint; a concurrent execution of any number of `createShop` requests
therefore changes the table by some sequence of such steps. -/
inductive FarmerInsertStep : List Farmer → List Farmer → Prop
  | mk {fs : List Farmer} (f : Farmer) {fs' : List Farmer} :
      insertFarmer fs f = some fs' → FarmerInsertStep fs fs'

/-- Reachability of the farmers table under interleaved constrained
inserts. -/
inductive FarmersReach : List Farmer → List Farmer → Prop
  | refl (fs : List Farmer) : FarmersReach fs fs
  | step {fs fs' fs'' : List Farmer} :
      FarmersReach fs fs' → FarmerInsertStep fs' fs'' → FarmersReach fs fs''

/-- A one-product, one-farmer base state used for the concrete scenarios:
farmer 1 (owned by user 50), product 1 with stock 10, empty cart, no
reviews. -/
def db₀ : DB :=
  { products := [⟨1, 1, 10, 0, 0⟩]
    cart := []
    reviews := []
    farmers := [⟨1, 50, 0, 0⟩]
    nextCartId := 1
    nextReviewId := 1 }

/-- State `db₀` after user 7 rates product 1 with 4: one review row, product
and farmer aggregates at 4.00 over one review. -/
def dbR1 : DB :=
  { products := [⟨1, 1, 10, 400, 1⟩]
    cart := []
    reviews := [⟨1, 7, 1, 1, 4, none⟩]
    farmers := [⟨1, 50, 400, 1⟩]
    nextCartId := 1
    nextReviewId := 2 }

/-- State `dbR1` after user 7 re-rates product 1 with 2: still one review row,
aggregates at 2.00 over one review. -/
def dbR2 : DB :=
  { products := [⟨1, 1, 10, 200, 1⟩]
    cart := []
    reviews := [⟨1, 7, 1, 1, 2, none⟩]
    farmers := [⟨1, 50, 200, 1⟩]
    nextCartId := 1
    nextReviewId := 2 }

/-- State `dbR1` with a comment attached to the single review row. -/
def dbC9 : DB :=
  { dbR1 with reviews := [⟨1, 7, 1, 1, 4, some ("ok")⟩] }

/-- State `db₀` after users 11, 12, 13 rate product 1 with 5, 5 and 4: the
farmer aggregate is 4.67 over three reviews whose exact mean is 14/3. -/
def dbC8 : DB :=
  rateRun (rateRun (rateRun db₀ 11 1 5) 12 1 5) 13 1 4

/-! ### Helper lemmas about the cart operations -/

lemma cartUnique_map_preserve (f : CartRow → CartRow)
    (hf : ∀ c, (f c).userId = c.userId ∧ (f c).productId = c.productId)
    {cart : List CartRow} (h : CartUnique cart) : CartUnique (cart.map f) := by
  unfold CartUnique at *
  refine (List.pairwise_map).mpr (h.imp ?_)
  intro a b hab
  rcases hab with hu | hp
  · exact Or.inl (by rw [(hf a).1, (hf b).1]; exact hu)
  · exact Or.inr (by rw [(hf a).2, (hf b).2]; exact hp)

lemma cartUnique_updateCartQty {cart : List CartRow} (cid : Nat) (q : Int)
    (h : CartUnique cart) : CartUnique (updateCartQty cart cid q) := by
  refine cartUnique_map_preserve _ ?_ h
  intro c
  constructor <;> (dsimp only; split <;> rfl)

lemma addToCart_ok_shape {db db' : DB} {u p : Nat} {q : Option Int}
    (h : addToCart db u p q = .ok db') :
    (∃ e, findCartEntry db u p = some e ∧
      db'.cart = updateCartQty db.cart e.id (e.quantity + parseIntOr1 q)) ∨
    (findCartEntry db u p = none ∧
      db'.cart = db.cart ++ [⟨db.nextCartId, u, p, parseIntOr1 q⟩]) := by
  unfold addToCart at h
  cases hfp : findProduct db p with
  | none => rw [hfp] at h; exact absurd h (by simp)
  | some product =>
    rw [hfp] at h
    simp only at h
    split at h
    · exact absurd h (by simp)
    · cases hce : findCartEntry db u p with
      | some e =>
        rw [hce] at h
        simp only at h
        split at h
        · exact absurd h (by simp)
        · left
          exact ⟨e, rfl, by cases h; rfl⟩
      | none =>
        rw [hce] at h
        simp only at h
        right
        exact ⟨rfl, by cases h; rfl⟩

lemma cartUnique_append_new {cart : List CartRow} {u p : Nat} (cid : Nat) (q : Int)
    (h : CartUnique cart) (hnone : cart.find? (fun c => c.userId == u && c.productId == p) = none) :
    CartUnique (cart ++ [⟨cid, u, p, q⟩]) := by
  unfold CartUnique at *
  rw [List.pairwise_append]
  refine ⟨h, by simp, ?_⟩
  intro a ha b hb
  have hb' : b = ⟨cid, u, p, q⟩ := by simpa using hb
  subst hb'
  have := List.find?_eq_none.mp hnone a ha
  simp only [Bool.and_eq_true, beq_iff_eq, not_and] at this
  by_cases hu : a.userId = u
  · exact Or.inr (this hu)
  · exact Or.inl hu

lemma cartUnique_addToCartRun (db : DB) (u p : Nat) (q : Option Int)
    (h : CartUnique db.cart) : CartUnique (addToCartRun db u p q).cart := by
  unfold addToCartRun
  cases hres : addToCart db u p q with
  | error e => exact h
  | ok db' =>
    rcases addToCart_ok_shape hres with ⟨e, _, hc⟩ | ⟨hn, hc⟩
    · rw [hc]; exact cartUnique_updateCartQty _ _ h
    · rw [hc]; exact cartUnique_append_new _ _ h hn

lemma updateQuantity_ok_shape {db db' : DB} {u cid : Nat} {q : Option Int}
    (h : updateQuantity db u cid q = .ok db') :
    db'.cart = updateCartQty db.cart cid (parseIntOr1 q) := by
  simp only [updateQuantity] at h
  split at h
  · exact absurd h (by simp)
  · split at h
    · exact absurd h (by simp)
    · split at h
      · exact absurd h (by simp)
      · split at h
        · exact absurd h (by simp)
        · cases h; rfl

lemma cartUnique_updateQuantityRun (db : DB) (u cid : Nat) (q : Option Int)
    (h : CartUnique db.cart) : CartUnique (updateQuantityRun db u cid q).cart := by
  unfold updateQuantityRun
  cases hres : updateQuantity db u cid q with
  | error e => exact h
  | ok db' => rw [updateQuantity_ok_shape hres]; exact cartUnique_updateCartQty _ _ h

lemma removeFromCart_ok_shape {db db' : DB} {u cid : Nat}
    (h : removeFromCart db u cid = .ok db') :
    db'.cart = db.cart.filter (fun c => !(c.id == cid && c.userId == u)) := by
  unfold removeFromCart at h
  split at h
  · cases h; rfl
  · exact absurd h (by simp)

lemma cartUnique_removeFromCartRun (db : DB) (u cid : Nat)
    (h : CartUnique db.cart) : CartUnique (removeFromCartRun db u cid).cart := by
  unfold removeFromCartRun
  cases hres : removeFromCart db u cid with
  | error e => exact h
  | ok db' =>
    rw [removeFromCart_ok_shape hres]
    exact List.Pairwise.sublist (List.filter_sublist _) h

/-! ### Claim theorems: cart service -/

/-- C2: `addToCart` fails with NotFound (404 "Product not found") when the
product does not exist; fails with InsufficientStock (400 "Insufficient
stock" / "Quantity exceeds available stock") when the requested quantity,
or the accumulated quantity counting an existing cart entry, exceeds the
product's current stock; otherwise inserts a new cart entry or increments
the existing one.  The last conjunct is the scenario: addToCart(u,p,3)
then addToCart(u,p,2) with stock 10 yields the single cart row of
quantity 5. -/
theorem C2_addToCart_contract :
    (∀ db u p q, findProduct db p = none →
        addToCart db u p q = .error ⟨404, "Product not found"⟩) ∧
    (∀ db u p q product, findProduct db p = some product →
        product.stockQuantity < parseIntOr1 q →
        addToCart db u p q = .error ⟨400, "Insufficient stock"⟩) ∧
    (∀ db u p q product e, findProduct db p = some product →
        ¬ product.stockQuantity < parseIntOr1 q →
        findCartEntry db u p = some e →
        e.quantity + parseIntOr1 q > product.stockQuantity →
        addToCart db u p q = .error ⟨400, "Quantity exceeds available stock"⟩) ∧
    (∀ db u p q product e, findProduct db p = some product →
        ¬ product.stockQuantity < parseIntOr1 q →
        findCartEntry db u p = some e →
        ¬ e.quantity + parseIntOr1 q > product.stockQuantity →
        addToCart db u p q =
          .ok { db with cart := updateCartQty db.cart e.id (e.quantity + parseIntOr1 q) }) ∧
    (∀ db u p q, findProduct db p ≠ none →
        (∀ product, findProduct db p = some product →
          ¬ product.stockQuantity < parseIntOr1 q) →
        findCartEntry db u p = none →
        addToCart db u p q =
          .ok { db with cart := db.cart ++ [⟨db.nextCartId, u, p, parseIntOr1 q⟩],
                        nextCartId := db.nextCartId + 1 }) ∧
    (addToCartRun (addToCartRun db₀ 7 1 (some 3)) 7 1 (some 2)).cart =
      [⟨1, 7, 1, 5⟩] := by
  refine ⟨?_, ?_, ?_, ?_, ?_, by decide⟩
  · intro db u p q h
    simp [addToCart, h]
  · intro db u p q product h hlt
    simp [addToCart, h, hlt]
  · intro db u p q product e h hge hce hover
    simp [addToCart, h, hge, hce, hover]
  · intro db u p q product e h hge hce hover
    simp [addToCart, h, hge, hce, hover]
  · intro db u p q hne hok hce
    cases hfp : findProduct db p with
    | none => exact absurd hfp hne
    | some product => simp [addToCart, hfp, hok product hfp, hce]

/-- C2 witness: the contract applied at concrete states — requesting 11
of a stock-10 product fails with "Insufficient stock", and the fresh
insert of 3 into an empty cart succeeds. -/
theorem C2_addToCart_contract_witness :
    addToCart db₀ 7 1 (some 11) = .error ⟨400, "Insufficient stock"⟩ ∧
    addToCart db₀ 7 1 (some 3) =
      .ok { db₀ with cart := [⟨1, 7, 1, 3⟩], nextCartId := 2 } :=
  ⟨C2_addToCart_contract.2.1 db₀ 7 1 (some 11) ⟨1, 1, 10, 0, 0⟩ rfl (by decide),
   C2_addToCart_contract.2.2.2.2.1 db₀ 7 1 (some 3) (by decide)
     (fun product hp => by cases hp; decide) rfl⟩

/-- C3: the cart table never holds two rows with the same
(user_id, product_id) pair after any sequence of addToCart,
updateQuantity and removeFromCart requests, starting from any state
satisfying the unique constraint. -/
theorem C3_cart_pair_unique (db : DB) (ops : List CartOp)
    (h : CartUnique db.cart) : CartUnique (runCartOps db ops).cart := by
  induction ops generalizing db with
  | nil => exact h
  | cons op ops ih =>
    have hstep : CartUnique (runCartOp db op).cart := by
      cases op with
      | add u p q => exact cartUnique_addToCartRun db u p q h
      | update u c q => exact cartUnique_updateQuantityRun db u c q h
      | remove u c => exact cartUnique_removeFromCartRun db u c h
    exact ih (runCartOp db op) hstep

/-- C3 witness: the invariant theorem applied to a concrete mixed request
sequence (two adds on the same pair, an update, a removal, another add). -/
theorem C3_cart_pair_unique_witness :
    CartUnique (runCartOps db₀
      [CartOp.add 7 1 (some 3), CartOp.add 7 1 (some 2),
       CartOp.update 7 1 (some 4), CartOp.remove 7 1,
       CartOp.add 8 1 (some 1)]).cart :=
  C3_cart_pair_unique db₀ _ (by decide)

/-- C7 counterexample: user 7 owns cart row 1 (quantity 3) for the
stock-10 product 1; `updateQuantity` with raw quantity 0 does not fail
with InvalidInput as the claim demands for newQty ≤ 0 — the JavaScript
`parseInt(quantity) || 1` coerces the falsy 0 to 1, the request succeeds
and the quantity is overwritten with 1. -/
theorem C7_zero_quantity_counterexample :
    updateQuantity { db₀ with cart := [⟨1, 7, 1, 3⟩], nextCartId := 2 } 7 1 (some 0) =
      .ok { db₀ with cart := [⟨1, 7, 1, 1⟩], nextCartId := 2 } := by
  rfl

/-- C7 (amended): `updateQuantity` fails with InvalidInput (400 "Quantity
must be greater than 0") for every newQty < 0; a raw quantity of 0 (or an
unparsable one) is coerced by `parseInt(...) || 1` to the default 1 rather
than rejected; it fails with NotFound when the cart row does not belong to
the caller, fails with InsufficientStock when the (coerced) quantity
exceeds the product's current stock, and otherwise overwrites the quantity
with the coerced value. -/
theorem C7_updateQuantity_amended :
    (∀ db u cid (n : Int), n < 0 →
        updateQuantity db u cid (some n) =
          .error ⟨400, "Quantity must be greater than 0"⟩) ∧
    (parseIntOr1 (some 0) = 1 ∧ parseIntOr1 none = 1) ∧
    (∀ db u cid q, 0 < parseIntOr1 q →
        db.cart.find? (fun c => c.id == cid && c.userId == u) = none →
        updateQuantity db u cid q = .error ⟨404, "Cart item not found"⟩) ∧
    (∀ db u cid q e product, 0 < parseIntOr1 q →
        db.cart.find? (fun c => c.id == cid && c.userId == u) = some e →
        findProduct db e.productId = some product →
        parseIntOr1 q > product.stockQuantity →
        updateQuantity db u cid q =
          .error ⟨400, "Quantity exceeds available stock"⟩) ∧
    (∀ db u cid q e product, 0 < parseIntOr1 q →
        db.cart.find? (fun c => c.id == cid && c.userId == u) = some e →
        findProduct db e.productId = some product →
        ¬ parseIntOr1 q > product.stockQuantity →
        updateQuantity db u cid q =
          .ok { db with cart := updateCartQty db.cart cid (parseIntOr1 q) }) := by
  refine ⟨?_, ⟨rfl, rfl⟩, ?_, ?_, ?_⟩
  · intro db u cid n hn
    have hne : n ≠ 0 := by omega
    have hle : n ≤ 0 := by omega
    simp [updateQuantity, parseIntOr1, hne, hle]
  · intro db u cid q hpos hnone
    have : ¬ parseIntOr1 q ≤ 0 := by omega
    simp [updateQuantity, this, hnone]
  · intro db u cid q e product hpos hfind hprod hover
    have : ¬ parseIntOr1 q ≤ 0 := by omega
    simp [updateQuantity, this, hfind, hprod, hover]
  · intro db u cid q e product hpos hfind hprod hover
    have : ¬ parseIntOr1 q ≤ 0 := by omega
    simp [updateQuantity, this, hfind, hprod, hover]

/-- C7 amended witness: at the counterexample state, quantity −2 is
rejected with InvalidInput and quantity 4 overwrites the row. -/
theorem C7_updateQuantity_amended_witness :
    updateQuantity { db₀ with cart := [⟨1, 7, 1, 3⟩], nextCartId := 2 } 7 1 (some (-2)) =
      .error ⟨400, "Quantity must be greater than 0"⟩ ∧
    updateQuantity { db₀ with cart := [⟨1, 7, 1, 3⟩], nextCartId := 2 } 7 1 (some 4) =
      .ok { db₀ with cart := [⟨1, 7, 1, 4⟩], nextCartId := 2 } :=
  ⟨C7_updateQuantity_amended.1 _ 7 1 (-2) (by decide),
   C7_updateQuantity_amended.2.2.2.2 _ 7 1 (some 4) ⟨1, 7, 1, 3⟩ ⟨1, 1, 10, 0, 0⟩
     (by decide) rfl rfl (by decide)⟩

/-- C10: `addToCart` places no lower bound on the quantity — a request
whose quantity parses to a negative integer passes the stock checks
(against a non-negative stock, and against an existing entry whose
quantity is within stock) and succeeds, inserting a cart row with the
negative quantity or decreasing the existing entry's quantity; no
InvalidInput error exists on this path. -/
theorem C10_addToCart_no_lower_bound :
    (∀ db u p (n : Int) product, n < 0 →
        findProduct db p = some product → 0 ≤ product.stockQuantity →
        findCartEntry db u p = none →
        addToCart db u p (some n) =
          .ok { db with cart := db.cart ++ [⟨db.nextCartId, u, p, n⟩],
                        nextCartId := db.nextCartId + 1 }) ∧
    (∀ db u p (n : Int) product e, n < 0 →
        findProduct db p = some product → 0 ≤ product.stockQuantity →
        findCartEntry db u p = some e → e.quantity ≤ product.stockQuantity →
        addToCart db u p (some n) =
          .ok { db with cart := updateCartQty db.cart e.id (e.quantity + n) }) := by
  constructor
  · intro db u p n product hn hfp hstock hce
    have hne : n ≠ 0 := by omega
    have hlt : ¬ product.stockQuantity < n := by omega
    simp [addToCart, parseIntOr1, hfp, hne, hlt, hce]
  · intro db u p n product e hn hfp hstock hce hq
    have hne : n ≠ 0 := by omega
    have hlt : ¬ product.stockQuantity < n := by omega
    have hacc : ¬ e.quantity + n > product.stockQuantity := by omega
    simp [addToCart, parseIntOr1, hfp, hne, hlt, hce, hacc]

/-- C10 witness: adding quantity −3 of the stock-10 product to an empty
cart succeeds and stores the negative row. -/
theorem C10_addToCart_no_lower_bound_witness :
    addToCart db₀ 7 1 (some (-3)) =
      .ok { db₀ with cart := [⟨1, 7, 1, -3⟩], nextCartId := 2 } :=
  C10_addToCart_no_lower_bound.1 db₀ 7 1 (-3) ⟨1, 1, 10, 0, 0⟩
    (by decide) rfl (by decide) rfl

/-! ### Helper lemmas about the review/rating aggregator -/

lemma products_upsertReview (db : DB) (u p fid r : Nat) :
    (upsertReview db u p fid r).products = db.products := by
  unfold upsertReview
  split <;> rfl

lemma farmers_upsertReview (db : DB) (u p fid r : Nat) :
    (upsertReview db u p fid r).farmers = db.farmers := by
  unfold upsertReview
  split <;> rfl

lemma reviews_recomputeProductAgg (db : DB) (p : Nat) :
    (recomputeProductAgg db p).1.reviews = db.reviews := rfl

lemma farmers_recomputeProductAgg (db : DB) (p : Nat) :
    (recomputeProductAgg db p).1.farmers = db.farmers := rfl

lemma reviews_recomputeFarmerAgg (db : DB) (fid : Nat) :
    (recomputeFarmerAgg db fid).reviews = db.reviews := rfl

lemma products_recomputeFarmerAgg (db : DB) (fid : Nat) :
    (recomputeFarmerAgg db fid).products = db.products := rfl

/-- Lookup `find?` by product id through the aggregate-updating map: the update
preserves ids, so the first match is the image of the first match. -/
lemma findProduct_map_agg (prods : List Product) (p a c : Nat) (product : Product)
    (hfp : prods.find? (fun x => x.id == p) = some product) :
    (prods.map (fun q =>
        if q.id == p then { q with ratingCenti := a, totalReviews := c } else q)).find?
        (fun x => x.id == p) =
      some { product with ratingCenti := a, totalReviews := c } := by
  rw [List.find?_map]
  have hpred : ((fun x : Product => x.id == p) ∘ (fun q : Product =>
      if q.id == p then { q with ratingCenti := a, totalReviews := c } else q)) =
      (fun x : Product => x.id == p) := by
    funext q
    by_cases hq : (q.id == p) = true
    · simp [Function.comp, hq]
    · simp [Function.comp, hq]
  rw [hpred, hfp]
  have hbeq := List.find?_some hfp
  simp only [beq_iff_eq] at hbeq
  simp [hbeq]

/-- Lookup `find?` by farmer id through the aggregate-updating map on the
farmers table. -/
lemma findFarmer_map_agg (fs : List Farmer) (fid a c : Nat) (farmer : Farmer)
    (hf : fs.find? (fun x => x.id == fid) = some farmer) :
    (fs.map (fun g =>
        if g.id == fid then { g with ratingCenti := a, totalReviews := c } else g)).find?
        (fun x => x.id == fid) =
      some { farmer with ratingCenti := a, totalReviews := c } := by
  rw [List.find?_map]
  have hpred : ((fun x : Farmer => x.id == fid) ∘ (fun g : Farmer =>
      if g.id == fid then { g with ratingCenti := a, totalReviews := c } else g)) =
      (fun x : Farmer => x.id == fid) := by
    funext g
    by_cases hg : (g.id == fid) = true
    · simp [Function.comp, hg]
    · simp [Function.comp, hg]
  rw [hpred, hf]
  have hbeq := List.find?_some hf
  simp only [beq_iff_eq] at hbeq
  simp [hbeq]

/-- Successful `rate` decomposed into the source's three steps: review
upsert, product-aggregate recompute, farmer-aggregate recompute. -/
lemma rate_ok_shape {db db' : DB} {u p : Nat} {r : Int} {avg cnt : Nat}
    (h : rate db u p r = .ok (db', avg, cnt)) :
    ∃ product, findProduct db p = some product ∧
      db' = recomputeFarmerAgg
        (recomputeProductAgg (upsertReview db u p product.farmerId r.toNat) p).1
        product.farmerId ∧
      avg = (recomputeProductAgg (upsertReview db u p product.farmerId r.toNat) p).2.1 ∧
      cnt = (recomputeProductAgg (upsertReview db u p product.farmerId r.toNat) p).2.2 := by
  unfold rate at h
  split at h
  · exact absurd h (by simp)
  · cases hfp : findProduct db p with
    | none => rw [hfp] at h; exact absurd h (by simp)
    | some product =>
      rw [hfp] at h
      simp only [Except.ok.injEq, Prod.mk.injEq] at h
      obtain ⟨h1, h2, h3⟩ := h
      exact ⟨product, rfl, h1.symm, h2.symm, h3.symm⟩

/-- Rounding `roundAvgCenti` with zero count collapses to the handler's NULL
fallback `0`. -/
lemma roundAvgCenti_zero (s : Nat) : roundAvgCenti s 0 = 0 := by
  simp [roundAvgCenti]

lemma recomputeProductAgg_findProduct (db : DB) (p : Nat) (product : Product)
    (hfp : findProduct db p = some product) :
    findProduct (recomputeProductAgg db p).1 p =
      some { product with
             ratingCenti := if (productReviews db p).length = 0 then 0
               else roundAvgCenti (ratingSum (productReviews db p)) (productReviews db p).length,
             totalReviews := (productReviews db p).length } := by
  unfold findProduct at hfp ⊢
  unfold recomputeProductAgg
  simp only
  exact findProduct_map_agg _ _ _ _ _ hfp

lemma recomputeFarmerAgg_findFarmer (db : DB) (fid : Nat) (farmer : Farmer)
    (hf : findFarmer db fid = some farmer) :
    findFarmer (recomputeFarmerAgg db fid) fid =
      some { farmer with
             ratingCenti := if (farmerReviews db fid).length = 0 then 0
               else roundAvgCenti (ratingSum (farmerReviews db fid)) (farmerReviews db fid).length,
             totalReviews := (farmerReviews db fid).length } := by
  unfold findFarmer at hf ⊢
  unfold recomputeFarmerAgg
  simp only
  exact findFarmer_map_agg _ _ _ _ _ hf

/-- Lookup `find?` of a review by (user, product) through a map that preserves
the user and product columns. -/
lemma findReview_map_upd (rs : List Review) (u p : Nat) (f : Review → Review)
    (hf : ∀ x, (f x).userId = x.userId ∧ (f x).productId = x.productId) :
    (rs.map f).find? (fun x => x.userId == u && x.productId == p) =
      (rs.find? (fun x => x.userId == u && x.productId == p)).map f := by
  rw [List.find?_map]
  have hpred : ((fun x : Review => x.userId == u && x.productId == p) ∘ f) =
      (fun x : Review => x.userId == u && x.productId == p) := by
    funext x
    simp [Function.comp, (hf x).1, (hf x).2]
  rw [hpred]

/-! ### Claim theorems: review/rating aggregator -/

/-- C1: after any successful rate, the persisted product rating equals the
mean of the ratings of all review rows for that product in the resulting
state, rounded to 2 decimal places (stated in exact hundredths:
`roundAvgCenti` is `100·sum/count` rounded half away from zero, matching
`AVG(rating)::numeric(3,2)`), and total_reviews equals the count of those
rows.  The right-hand sides read only the post-state review table: the
aggregate is a full re-scan, independent of the pre-state aggregate
columns. -/
theorem C1_product_aggregate (db db' : DB) (u p : Nat) (r : Int) (avg cnt : Nat)
    (h : rate db u p r = .ok (db', avg, cnt))
    (prod' : Product) (hfind : findProduct db' p = some prod') :
    prod'.totalReviews = (productReviews db' p).length ∧
    prod'.ratingCenti =
      roundAvgCenti (ratingSum (productReviews db' p)) (productReviews db' p).length := by
  obtain ⟨product, hfp, hdb, -, -⟩ := rate_ok_shape h
  subst hdb
  set db1 := upsertReview db u p product.farmerId r.toNat with hdb1
  have hfp1 : findProduct db1 p = some product := by
    unfold findProduct
    rw [hdb1, products_upsertReview]
    exact hfp
  have hthrough : findProduct
      (recomputeFarmerAgg (recomputeProductAgg db1 p).1 product.farmerId) p =
      findProduct (recomputeProductAgg db1 p).1 p := by
    unfold findProduct
    rw [products_recomputeFarmerAgg]
  rw [hthrough, recomputeProductAgg_findProduct db1 p product hfp1] at hfind
  have hpe := Option.some.inj hfind
  have hpr : productReviews
      (recomputeFarmerAgg (recomputeProductAgg db1 p).1 product.farmerId) p =
      productReviews db1 p := rfl
  rw [hpr, ← hpe]
  refine ⟨rfl, ?_⟩
  by_cases hc : (productReviews db1 p).length = 0
  · simp [hc, roundAvgCenti_zero]
  · simp [hc]

/-- C1 witness: the aggregate theorem applied to user 7 rating the fresh
product 1 with 4 — the persisted rating is 4.00 (400 hundredths) over the
single review row. -/
theorem C1_product_aggregate_witness :
    rate db₀ 7 1 4 = .ok (dbR1, 400, 1) ∧
    ((⟨1, 1, 10, 400, 1⟩ : Product).totalReviews = (productReviews dbR1 1).length ∧
     (⟨1, 1, 10, 400, 1⟩ : Product).ratingCenti =
       roundAvgCenti (ratingSum (productReviews dbR1 1)) (productReviews dbR1 1).length) :=
  ⟨rfl, C1_product_aggregate db₀ dbR1 7 1 4 400 1 rfl ⟨1, 1, 10, 400, 1⟩ rfl⟩

lemma farmerAggPred (fid a c : Nat) :
    ((fun x : Farmer => x.id == fid) ∘ (fun g : Farmer =>
        if g.id == fid then { g with ratingCenti := a, totalReviews := c } else g)) =
      (fun x : Farmer => x.id == fid) := by
  funext g
  by_cases hg : (g.id == fid) = true
  · simp [Function.comp, hg]
  · simp [Function.comp, hg]

lemma recomputeFarmerAgg_findFarmer_none (db : DB) (fid : Nat)
    (hf : findFarmer db fid = none) :
    findFarmer (recomputeFarmerAgg db fid) fid = none := by
  unfold findFarmer at hf ⊢
  unfold recomputeFarmerAgg
  simp only
  rw [List.find?_map, farmerAggPred, hf]
  rfl

/-- C8 counterexample: in `db₀`, users 11, 12 and 13 rate product 1 with
5, 5 and 4.  The last rate completes successfully and persists the farmer
rating 4.67 (467 hundredths, the `numeric(3,2)` rounding) over three
reviews — but the exact mean of the three ratings is 14/3 ≠ 467/100, so
the persisted rating does not equal the mean as the claim states it. -/
theorem C8_exact_mean_counterexample :
    rate (rateRun (rateRun db₀ 11 1 5) 12 1 5) 13 1 4 = .ok (dbC8, 467, 3) ∧
    findFarmer dbC8 1 = some ⟨1, 50, 467, 3⟩ ∧
    ratingSum (farmerReviews dbC8 1) = 14 ∧
    (farmerReviews dbC8 1).length = 3 ∧
    (467 : ℚ) / 100 ≠ (14 : ℚ) / 3 := by
  refine ⟨rfl, rfl, rfl, rfl, by norm_num⟩

/-- C8 (amended): after every successful rate on a product, the owning
farmer's persisted rating equals the mean — rounded to 2 decimal places,
stated in exact hundredths — of the ratings of all reviews tied to that
farmer (across all of that farmer's products), and the farmer's
total_reviews equals the count of those reviews. -/
theorem C8_farmer_aggregate_amended (db db' : DB) (u p : Nat) (r : Int) (avg cnt : Nat)
    (h : rate db u p r = .ok (db', avg, cnt))
    (product : Product) (hp : findProduct db p = some product)
    (f' : Farmer) (hf : findFarmer db' product.farmerId = some f') :
    f'.totalReviews = (farmerReviews db' product.farmerId).length ∧
    f'.ratingCenti =
      roundAvgCenti (ratingSum (farmerReviews db' product.farmerId))
        (farmerReviews db' product.farmerId).length := by
  obtain ⟨product0, hfp0, hdb, -, -⟩ := rate_ok_shape h
  rw [hp] at hfp0
  have hpp := Option.some.inj hfp0
  subst hpp
  subst hdb
  set db1 := upsertReview db u p product.farmerId r.toNat with hdb1
  set db2 := (recomputeProductAgg db1 p).1 with hdb2
  have hff2 : findFarmer db2 (product.farmerId) = findFarmer db (product.farmerId) := by
    unfold findFarmer
    rw [hdb2, farmers_recomputeProductAgg, hdb1, farmers_upsertReview]
  cases hfar : findFarmer db product.farmerId with
  | none =>
    rw [recomputeFarmerAgg_findFarmer_none db2 product.farmerId (hff2.trans hfar)] at hf
    exact absurd hf (by simp)
  | some farmer =>
    rw [recomputeFarmerAgg_findFarmer db2 product.farmerId farmer (hff2.trans hfar)] at hf
    have hpe := Option.some.inj hf
    have hfr : farmerReviews (recomputeFarmerAgg db2 product.farmerId) product.farmerId =
        farmerReviews db2 product.farmerId := rfl
    rw [hfr, ← hpe]
    refine ⟨rfl, ?_⟩
    by_cases hc : (farmerReviews db2 product.farmerId).length = 0
    · simp [hc, roundAvgCenti_zero]
    · simp [hc]

/-- C8 amended witness: after user 7 rates product 1 with 4, farmer 1
carries the rounded mean 4.00 over its single review. -/
theorem C8_farmer_aggregate_amended_witness :
    (⟨1, 50, 400, 1⟩ : Farmer).totalReviews = (farmerReviews dbR1 1).length ∧
    (⟨1, 50, 400, 1⟩ : Farmer).ratingCenti =
      roundAvgCenti (ratingSum (farmerReviews dbR1 1)) (farmerReviews dbR1 1).length :=
  C8_farmer_aggregate_amended db₀ dbR1 7 1 4 400 1 rfl ⟨1, 1, 10, 0, 0⟩ rfl
    ⟨1, 50, 400, 1⟩ rfl

/-- C4: rate upserts the single (user, product) review row — when a review
by the caller already exists, a further rate changes that row's rating in
place and appends nothing.  The closed conjuncts are the scenario: user 7
rates product 1 with 4 then 2, leaving one review row with rating 2,
product rating 2.00 and total_reviews 1. -/
theorem C4_rate_upsert :
    (∀ db db' u p (r : Int) avg cnt r0,
        findReview db u p = some r0 →
        rate db u p r = .ok (db', avg, cnt) →
        db'.reviews.length = db.reviews.length ∧
        findReview db' u p = some { r0 with rating := r.toNat }) ∧
    rateRun (rateRun db₀ 7 1 4) 7 1 2 = dbR2 ∧
    findProduct dbR2 1 = some ⟨1, 1, 10, 200, 1⟩ ∧
    dbR2.reviews = [⟨1, 7, 1, 1, 2, none⟩] := by
  refine ⟨?_, rfl, rfl, rfl⟩
  intro db db' u p r avg cnt r0 hr0 h
  obtain ⟨product, hfp, hdb, -, -⟩ := rate_ok_shape h
  subst hdb
  have hup : (upsertReview db u p product.farmerId r.toNat).reviews =
      db.reviews.map (fun x => if x.id == r0.id then { x with rating := r.toNat } else x) := by
    unfold upsertReview
    rw [hr0]
  have hrev : (recomputeFarmerAgg
      (recomputeProductAgg (upsertReview db u p product.farmerId r.toNat) p).1
      product.farmerId).reviews = (upsertReview db u p product.farmerId r.toNat).reviews := rfl
  constructor
  · rw [hrev, hup, List.length_map]
  · unfold findReview
    rw [hrev, hup,
      findReview_map_upd db.reviews u p _ (fun x => by constructor <;> (dsimp only; split <;> rfl))]
    unfold findReview at hr0
    rw [hr0]
    simp

/-- C4 witness: the upsert theorem applied to the second rate of the
scenario — the review count stays 1 and the row's rating becomes 2. -/
theorem C4_rate_upsert_witness :
    rateRun db₀ 7 1 4 = dbR1 ∧
    findReview dbR1 7 1 = some ⟨1, 7, 1, 1, 4, none⟩ ∧
    (dbR2.reviews.length = dbR1.reviews.length ∧
     findReview dbR2 7 1 = some ⟨1, 7, 1, 1, 2, none⟩) :=
  ⟨rfl, rfl, C4_rate_upsert.1 dbR1 dbR2 7 1 2 200 1 ⟨1, 7, 1, 1, 4, none⟩ rfl rfl⟩

/-- C5: a comment cannot exist without a prior rating.  Empty text (after
trimming) fails with InvalidInput (400 "Comment cannot be empty"); with
non-empty text, an existing product and no review row by the caller, the
request fails with PreconditionFailed (400 "Please rate this product
before commenting"); in both cases no row is created — the state is
unchanged.  (In the schema, the invariant itself is structural: a review
row always carries a NOT NULL rating, and the comment route only updates
existing review rows.) -/
theorem C5_comment_requires_rating :
    (∀ db u p text, jsTrim text = "" →
        comment db u p text = .error ⟨400, "Comment cannot be empty"⟩ ∧
        commentRun db u p text = db) ∧
    (∀ db u p text product, jsTrim text ≠ "" →
        findProduct db p = some product →
        findReview db u p = none →
        comment db u p text = .error ⟨400, "Please rate this product before commenting"⟩ ∧
        commentRun db u p text = db) := by
  constructor
  · intro db u p text htrim
    have hc : comment db u p text = .error ⟨400, "Comment cannot be empty"⟩ := by
      simp [comment, htrim]
    exact ⟨hc, by simp [commentRun, hc]⟩
  · intro db u p text product htrim hfp hnr
    have hc : comment db u p text =
        .error ⟨400, "Please rate this product before commenting"⟩ := by
      simp [comment, htrim, hfp, hnr]
    exact ⟨hc, by simp [commentRun, hc]⟩

/-- C5 witness: user 9 has not rated product 1 in `db₀`; a non-empty
comment fails with the precondition error and the state is unchanged. -/
theorem C5_comment_requires_rating_witness :
    comment db₀ 9 1 "tasty" = .error ⟨400, "Please rate this product before commenting"⟩ ∧
    commentRun db₀ 9 1 "tasty" = db₀ :=
  C5_comment_requires_rating.2 db₀ 9 1 "tasty" ⟨1, 1, 10, 0, 0⟩ (by decide) rfl rfl

/-- C9: deleteComment clears only the comment field of the caller's
review.  The products, farmers and cart tables are untouched (hence the
product and farmer aggregate ratings and total_reviews are unchanged),
every review keeps its id, user, product, farmer and rating, the caller's
row merely loses its comment, and every other review row is unchanged. -/
theorem C9_deleteComment_frame (db db' : DB) (u p : Nat) (r0 : Review)
    (hr0 : findReview db u p = some r0)
    (h : deleteComment db u p = .ok db') :
    db'.products = db.products ∧
    db'.farmers = db.farmers ∧
    db'.cart = db.cart ∧
    db'.reviews.map (fun x => (x.id, x.userId, x.productId, x.farmerId, x.rating)) =
      db.reviews.map (fun x => (x.id, x.userId, x.productId, x.farmerId, x.rating)) ∧
    findReview db' u p = some { r0 with comment := none } ∧
    ∀ x ∈ db.reviews, x.id ≠ r0.id → x ∈ db'.reviews := by
  unfold deleteComment at h
  rw [hr0] at h
  simp only [Except.ok.injEq] at h
  subst h
  refine ⟨rfl, rfl, rfl, ?_, ?_, ?_⟩
  · rw [List.map_map]
    have hcomp : ((fun x : Review => (x.id, x.userId, x.productId, x.farmerId, x.rating)) ∘
        (fun x : Review => if x.id == r0.id then { x with comment := none } else x)) =
        (fun x : Review => (x.id, x.userId, x.productId, x.farmerId, x.rating)) := by
      funext x
      dsimp [Function.comp]
      split <;> rfl
    rw [hcomp]
  · unfold findReview
    dsimp only
    rw [findReview_map_upd db.reviews u p _ (fun x => by constructor <;> (dsimp only; split <;> rfl))]
    unfold findReview at hr0
    rw [hr0]
    simp
  · intro x hx hne
    have hxid : (x.id == r0.id) = false := by simpa using hne
    have hmem := List.mem_map_of_mem
      (fun x : Review => if x.id == r0.id then { x with comment := none } else x) hx
    simpa [hxid] using hmem

/-- C9 witness: deleting the comment on `dbC9`'s single review yields
`dbR1` — same tables everywhere except the cleared comment. -/
theorem C9_deleteComment_frame_witness :
    dbR1.products = dbC9.products ∧
    dbR1.farmers = dbC9.farmers ∧
    dbR1.cart = dbC9.cart ∧
    dbR1.reviews.map (fun x => (x.id, x.userId, x.productId, x.farmerId, x.rating)) =
      dbC9.reviews.map (fun x => (x.id, x.userId, x.productId, x.farmerId, x.rating)) ∧
    findReview dbR1 7 1 = some ⟨1, 7, 1, 1, 4, none⟩ ∧
    ∀ x ∈ dbC9.reviews, x.id ≠ 1 → x ∈ dbR1.reviews :=
  C9_deleteComment_frame dbC9 dbR1 7 1 ⟨1, 7, 1, 1, 4, some ("ok")⟩ rfl rfl

/-! ### Claim theorems: shop/profile creation guard -/

lemma farmersUnique_step {fs fs' : List Farmer}
    (h : FarmerInsertStep fs fs') (hu : FarmersUnique fs) : FarmersUnique fs' := by
  cases h with
  | mk f hins =>
    unfold insertFarmer at hins
    split at hins
    · exact absurd hins (by simp)
    · next hany =>
      cases hins
      unfold FarmersUnique at *
      rw [List.pairwise_append]
      refine ⟨hu, by simp, ?_⟩
      intro a ha b hb
      have hb' : b = f := by simpa using hb
      subst hb'
      intro heq
      exact hany (List.any_eq_true.mpr ⟨a, ha, by simp [heq]⟩)

/-- C6: `createShop` fails Forbidden (403) when the caller's role is not
seller; when a farmer profile already exists for the user it silently
redirects to the home page and inserts nothing; any single call either
leaves the farmers table unchanged or performs exactly one insert through
the table's unique constraint on user_id; and the at-most-one-profile-
per-user invariant is preserved along every sequence of such constrained
inserts — i.e. under any interleaving of concurrent createShop calls,
whose only farmers-table writes are these steps. -/
theorem C6_create_shop_guard :
    (∀ db s fid, s.role ≠ Role.seller →
        createShop db (some s) fid = (ShopResult.forbidden, db)) ∧
    (∀ db s fid, s.role = Role.seller →
        (db.farmers.any (fun g => g.userId == s.userId)) = true →
        createShop db (some s) fid = (ShopResult.redirectHome, db)) ∧
    (∀ db sess fid,
        (createShop db sess fid).2.farmers = db.farmers ∨
        FarmerInsertStep db.farmers (createShop db sess fid).2.farmers) ∧
    (∀ fs fs', FarmersUnique fs → FarmersReach fs fs' → FarmersUnique fs') := by
  refine ⟨?_, ?_, ?_, ?_⟩
  · intro db s fid hrole
    simp [createShop, hrole]
  · intro db s fid hrole hex
    simp [createShop, hrole, hex]
  · intro db sess fid
    cases sess with
    | none => left; rfl
    | some s =>
      by_cases hrole : s.role = Role.seller
      · by_cases hex : (db.farmers.any (fun g => g.userId == s.userId)) = true
        · left
          simp [createShop, hrole, hex]
        · have hins : insertFarmer db.farmers ⟨fid, s.userId, 0, 0⟩ =
              some (db.farmers ++ [⟨fid, s.userId, 0, 0⟩]) := by
            simp only [insertFarmer, if_neg hex]
          right
          have hres : (createShop db (some s) fid).2.farmers =
              db.farmers ++ [⟨fid, s.userId, 0, 0⟩] := by
            simp [createShop, hrole, hex, hins]
          rw [hres]
          exact FarmerInsertStep.mk _ hins
      · left
        simp [createShop, hrole]
  · intro fs fs' hu hreach
    induction hreach with
    | refl => exact hu
    | step hr hstep ih => exact farmersUnique_step hstep ih

/-- C6 witness: a buyer is rejected with Forbidden, a seller who already
owns farmer profile 1 is redirected home without a write, and a
constrained-insert step from the unique base table keeps user ids
unique. -/
theorem C6_create_shop_guard_witness :
    createShop db₀ (some ⟨50, Role.buyer⟩) 2 = (ShopResult.forbidden, db₀) ∧
    createShop db₀ (some ⟨50, Role.seller⟩) 2 = (ShopResult.redirectHome, db₀) ∧
    FarmersUnique [⟨1, 50, 0, 0⟩, ⟨2, 60, 0, 0⟩] :=
  ⟨C6_create_shop_guard.1 db₀ ⟨50, Role.buyer⟩ 2 (by decide),
   C6_create_shop_guard.2.1 db₀ ⟨50, Role.seller⟩ 2 rfl (by decide),
   C6_create_shop_guard.2.2.2 [⟨1, 50, 0, 0⟩] [⟨1, 50, 0, 0⟩, ⟨2, 60, 0, 0⟩]
     (by decide)
     (FarmersReach.step (FarmersReach.refl _) (FarmerInsertStep.mk ⟨2, 60, 0, 0⟩ rfl))⟩

end FarmFresh
